import Mathlib

/-!
Verification of the pre-trade compliance check engine and approval workflow of
the swift-order-entry repository, as a shallow embedding in Lean 4.

JS numbers are modelled as rationals (ℚ).  The only places where IEEE-754
behaviour leaks into the logic of the translated functions are:
  * parseFloat of an empty or non-numeric string yields NaN, and every
    comparison against NaN is false; string inputs that flow through
    parseFloat are therefore modelled by the three-case type NumInput below,
    and the NaN branch of each comparison is written out explicitly;
  * division by zero yields Infinity/NaN; the two divisions in the source
    (price deviation) are modelled with an explicit zero-denominator case
    that mirrors which side of the comparison JS would take.
-/

/-- Severity of a check result, from src/src/types/approval.ts (type Severity). -/
inductive Severity where
  | hard
  | soft
  | warning
  | pass
deriving DecidableEq, Repr

/-- One entry of the engine output, from src/src/types/approval.ts (interface CheckResult). -/
structure CheckResult where
  name : String
  severity : Severity
  message : String
deriving DecidableEq, Repr

/-- Trade side, from src/src/types/approval.ts (type Side). -/
inductive Side where
  | Buy
  | Sell
deriving DecidableEq, Repr

/-- Security reference passed to the engine, from the PreTradeChecksProps
interface: security: \x7b symbol; name; type; price \x7d | null. -/
structure Security where
  symbol : String
  name : String
  type : String
  price : ℚ
deriving DecidableEq, Repr

/-- A JS string that is consumed through truthiness plus parseFloat
(limitPrice and the order-value input field): it is either the empty string
(falsy), a non-empty string that parseFloat turns into a number, or a
non-empty string on which parseFloat yields NaN. -/
inductive NumInput where
  | empty
  | num (q : ℚ)
  | nan (s : String)
deriving DecidableEq, Repr

/-- Input of the engine, from src/src/types/approval.ts (interface PreTradeChecksProps). -/
structure PreTradeChecksProps where
  security : Option Security
  side : Side
  orderAmount : ℚ
  limitPrice : NumInput
  orderType : String
  investmentAccount : String
  cashAccount : String
deriving DecidableEq, Repr

/-- The reference data the engine consults.  The source reads module-level
constants (MOCK_PORTFOLIO, MOCK_CASH, MOCK_HOLDINGS, RESTRICTED_SECURITIES,
RESIDENCY_RESTRICTED); they are gathered into one record so theorems can
quantify over them, and the concrete mock tables are the instance
mockRefData below. -/
structure ReferenceData where
  portfolioValue : String → Option ℚ
  cashBalance : String → Option ℚ
  holdings : String → Option (String → Option ℚ)
  restricted : List String
  residencyRestricted : String → Option String

/-! Currency and percentage formatting used in the check messages.
toLocaleString(undefined, \x7b minimumFractionDigits: 2 \x7d) under the
default en-US locale prints thousands separators and two fraction digits,
and toFixed prints a fixed number of fraction digits without separators. -/

/-- Inserts a comma after every group of three characters of a reversed digit
list, so that reversing back yields en-US thousands grouping. -/
def commaRev : List Char → List Char
  | a :: b :: c :: d :: rest => a :: b :: c :: ',' :: commaRev (d :: rest)
  | l => l

/-- Decimal representation of a natural number with en-US thousands separators. -/
def groupThousands (n : Nat) : String :=
  String.mk (commaRev (toString n).toList.reverse).reverse

/-- Two-digit decimal representation of a number below 100. -/
def twoDigits (k : Nat) : String :=
  if k < 10 then "0" ++ toString k else toString k

/-- Rounding to the nearest integer, halves up: the floor of q + 1/2,
written with integer floor division so that it evaluates by kernel
reduction.  All values the source formats are exact at the printed
precision, so the tie-breaking direction never shows. -/
def ratRoundHalfUp (q : ℚ) : Int :=
  Int.fdiv (2 * q.num + q.den) (2 * q.den)

/-- Currency body as printed by toLocaleString(undefined,
\x7b minimumFractionDigits: 2 \x7d): thousands separators and exactly two
fraction digits (the source only ever formats values that are exact at two
decimals, so the maximumFractionDigits:3 default never shows). -/
def formatCurrency2 (q : ℚ) : String :=
  let cents : Int := ratRoundHalfUp (q * 100)
  let body := groupThousands (cents.natAbs / 100) ++ "." ++ twoDigits (cents.natAbs % 100)
  if cents < 0 then "-" ++ body else body

/-- Decimal representation as printed by toFixed(1): one fraction digit, no
thousands separators. -/
def formatFixed1 (q : ℚ) : String :=
  let tenths : Int := ratRoundHalfUp (q * 10)
  let sign := if tenths < 0 then "-" else ""
  sign ++ toString (tenths.natAbs / 10) ++ "." ++ toString (tenths.natAbs % 10)

/-- Decimal representation as printed by toFixed(2): two fraction digits, no
thousands separators. -/
def formatFixed2 (q : ℚ) : String :=
  let cents : Int := ratRoundHalfUp (q * 100)
  let sign := if cents < 0 then "-" else ""
  sign ++ toString (cents.natAbs / 100) ++ "." ++ twoDigits (cents.natAbs % 100)

/-- Substring test: containsSub hay needle is true when needle occurs
contiguously in hay.  Used to state the message-content parts of the spec. -/
def containsSub (hay needle : String) : Bool :=
  (List.range (hay.toList.length + 1)).any
    (fun i => needle.toList.isPrefixOf (hay.toList.drop i))

/-! The six rules of runChecks (src/src/types/approval.ts, lines 77-175),
one definition per numbered block of the source. -/

/-- Rule 1, Restricted security (HARD), lines 84-90. -/
def restrictedCheck (rd : ReferenceData) (security : Security) : List CheckResult :=
  if security.symbol ∈ rd.restricted then
    [{ name := "Restricted Security",
       severity := Severity.hard,
       message := security.symbol ++ " is on the restricted securities list and cannot be traded." }]
  else []

/-- Rule 2, Client residency (HARD), lines 92-99.  The JS condition
if (RESIDENCY_RESTRICTED[security.symbol]) is a truthiness test on the mapped
string, so a mapped empty string would not fire. -/
def residencyCheck (rd : ReferenceData) (security : Security) : List CheckResult :=
  match rd.residencyRestricted security.symbol with
  | some reason =>
      if reason ≠ "" then
        [{ name := "Client Residency", severity := Severity.hard, message := reason }]
      else []
  | none => []

/-- Rule 3, Cash sufficiency (HARD for Buy), lines 101-117.  The JS condition
side === "Buy" && cashAccount is a truthiness test on the account string. -/
def cashCheck (rd : ReferenceData) (side : Side) (cashAccount : String)
    (orderAmount : ℚ) : List CheckResult :=
  if side = Side.Buy ∧ cashAccount ≠ "" then
    if orderAmount > (rd.cashBalance cashAccount).getD 0 then
      [{ name := "Cash Sufficiency", severity := Severity.hard,
         message := "Insufficient funds. Required: $" ++ formatCurrency2 orderAmount
           ++ " — Available: $" ++ formatCurrency2 ((rd.cashBalance cashAccount).getD 0) }]
    else
      [{ name := "Cash Sufficiency", severity := Severity.pass,
         message := "Sufficient funds available ($"
           ++ formatCurrency2 ((rd.cashBalance cashAccount).getD 0) ++ ")" }]
  else []

/-- The local const newExposure of rule 4: currentHolding + orderAmount for
Buy, currentHolding - orderAmount for Sell, with the nested holdings lookup
defaulting to 0. -/
def newExposureOf (rd : ReferenceData) (security : Security) (side : Side)
    (investmentAccount : String) (orderAmount : ℚ) : ℚ :=
  if side = Side.Buy then
    ((rd.holdings investmentAccount).bind (fun h => h security.symbol)).getD 0 + orderAmount
  else
    ((rd.holdings investmentAccount).bind (fun h => h security.symbol)).getD 0 - orderAmount

/-- The local const concentration of rule 4: portfolioValue > 0 ?
(newExposure / portfolioValue) * 100 : 0. -/
def concentrationOf (rd : ReferenceData) (security : Security) (side : Side)
    (investmentAccount : String) (orderAmount : ℚ) : ℚ :=
  if (rd.portfolioValue investmentAccount).getD 0 > 0 then
    newExposureOf rd security side investmentAccount orderAmount
      / (rd.portfolioValue investmentAccount).getD 0 * 100
  else 0

/-- Rule 4, Concentration limit (HARD above 20% of portfolio), lines 119-138.
The nested lookup MOCK_HOLDINGS[acct]?.[symbol] ?? 0 is the bind-then-default
inside newExposureOf. -/
def concentrationCheck (rd : ReferenceData) (security : Security) (side : Side)
    (investmentAccount : String) (orderAmount : ℚ) : List CheckResult :=
  if investmentAccount ≠ "" then
    if concentrationOf rd security side investmentAccount orderAmount > 20 then
      [{ name := "Concentration Limit", severity := Severity.hard,
         message := "Post-trade concentration of "
           ++ formatFixed1 (concentrationOf rd security side investmentAccount orderAmount)
           ++ "% exceeds 20% limit for " ++ security.symbol ++ "." }]
    else
      [{ name := "Concentration Limit", severity := Severity.pass,
         message := "Post-trade concentration: "
           ++ formatFixed1 (concentrationOf rd security side investmentAccount orderAmount)
           ++ "% (limit: 20%)" }]
  else []

/-- Rule 5, Order size limit (SOFT above $100K), lines 140-153. -/
def orderSizeCheck (orderAmount : ℚ) : List CheckResult :=
  if orderAmount > 100000 then
    [{ name := "Order Size", severity := Severity.soft,
       message := "Order value $" ++ formatCurrency2 orderAmount
         ++ " exceeds $100,000 threshold — requires approval." }]
  else
    [{ name := "Order Size", severity := Severity.pass,
       message := "Order value within threshold" }]

/-- Rule 6, Price deviation (WARNING when the limit price is more than 3% off
market), lines 155-172.  The JS condition orderType === "Limit" && limitPrice
is a truthiness test on the limit-price string.  When the string does not
parse, parseFloat yields NaN, NaN > 3 is false, and the source pushes the
pass entry.  When security.price = 0 the JS deviation is Infinity (limit
nonzero, comparison true) or NaN (limit zero, comparison false); both cases
are written out. -/
def priceDeviationCheck (security : Security) (orderType : String)
    (limitPrice : NumInput) : List CheckResult :=
  if orderType = "Limit" then
    match limitPrice with
    | NumInput.empty => []
    | NumInput.nan _ =>
        [{ name := "Price Deviation", severity := Severity.pass,
           message := "Limit price within 3% of market" }]
    | NumInput.num limit =>
        if (security.price = 0 ∧ limit ≠ 0)
            ∨ (security.price ≠ 0 ∧ |(limit - security.price) / security.price| * 100 > 3) then
          [{ name := "Price Deviation", severity := Severity.warning,
             message := "Limit price deviates "
               ++ formatFixed1 (|(limit - security.price) / security.price| * 100)
               ++ "% from market price ($" ++ formatFixed2 security.price ++ ")." }]
        else
          [{ name := "Price Deviation", severity := Severity.pass,
             message := "Limit price within 3% of market" }]
  else []

/-- The engine, from runChecks (src/src/types/approval.ts, lines 77-175):
guard clause, then the six rule blocks pushed in source order. -/
def runChecks (rd : ReferenceData) (props : PreTradeChecksProps) : List CheckResult :=
  match props.security with
  | none => []
  | some security =>
      if props.orderAmount ≤ 0 then []
      else
        restrictedCheck rd security
          ++ residencyCheck rd security
          ++ cashCheck rd props.side props.cashAccount props.orderAmount
          ++ concentrationCheck rd security props.side props.investmentAccount props.orderAmount
          ++ orderSizeCheck props.orderAmount
          ++ priceDeviationCheck security props.orderType props.limitPrice

/-- The outcome reduction of usePreTradeOutcome (src/src/types/approval.ts,
lines 185-190). -/
def overallOutcome (checks : List CheckResult) : Severity :=
  if checks.any (fun c => c.severity == Severity.hard) then Severity.hard
  else if checks.any (fun c => c.severity == Severity.soft) then Severity.soft
  else if checks.any (fun c => c.severity == Severity.warning) then Severity.warning
  else Severity.pass

/-- Numeric rank of a severity under the total order hard > soft > warning > pass. -/
def sevRank : Severity → Nat
  | Severity.hard => 3
  | Severity.soft => 2
  | Severity.warning => 1
  | Severity.pass => 0

/-- Maximum of two severities under the order hard > soft > warning > pass. -/
def sevMax (a b : Severity) : Severity :=
  if sevRank a < sevRank b then b else a

/-- Maximum severity occurring in a result list, with pass for the empty list. -/
def maxSeverity (checks : List CheckResult) : Severity :=
  checks.foldr (fun c acc => sevMax c.severity acc) Severity.pass

/-! The concrete mock reference data of src/src/types/approval.ts, lines 52-75. -/

/-- MOCK_PORTFOLIO, lines 53-57. -/
def mockPortfolioValue : String → Option ℚ := fun a =>
  if a = "INV-001 Main" then some 500000
  else if a = "INV-002 Growth" then some 250000
  else if a = "INV-003 Retirement" then some 800000
  else none

/-- MOCK_CASH, lines 59-62. -/
def mockCashBalance : String → Option ℚ := fun a =>
  if a = "CASH-001 USD" then some 75000
  else if a = "CASH-002 EUR" then some 42000
  else none

/-- MOCK_HOLDINGS, lines 64-68. -/
def mockHoldings : String → Option (String → Option ℚ) := fun a =>
  if a = "INV-001 Main" then
    some (fun s => if s = "AAPL" then some 80000 else if s = "MSFT" then some 120000 else none)
  else if a = "INV-002 Growth" then
    some (fun s => if s = "TSLA" then some 60000 else if s = "GOOGL" then some 40000 else none)
  else if a = "INV-003 Retirement" then
    some (fun s => if s = "US10Y" then some 200000 else if s = "VFIAX" then some 300000 else none)
  else none

/-- RESTRICTED_SECURITIES, line 70. -/
def mockRestricted : List String := ["MUNI7Y"]

/-- RESIDENCY_RESTRICTED, lines 73-75. -/
def mockResidencyRestricted : String → Option String := fun s =>
  if s = "SWPPX" then some "Security not available for non-US resident clients" else none

/-- The reference data actually wired into the source. -/
def mockRefData : ReferenceData :=
  { portfolioValue := mockPortfolioValue
    cashBalance := mockCashBalance
    holdings := mockHoldings
    restricted := mockRestricted
    residencyRestricted := mockResidencyRestricted }

/-! Severity aggregation: the cascade of usePreTradeOutcome computes the
maximum severity of the list under hard > soft > warning > pass. -/

theorem overallOutcome_cons (c : CheckResult) (t : List CheckResult) :
    overallOutcome (c :: t) = sevMax c.severity (overallOutcome t) := by
  cases hc : c.severity <;>
    cases ha : t.any (fun x => x.severity == Severity.hard) <;>
      cases hb : t.any (fun x => x.severity == Severity.soft) <;>
        cases hw : t.any (fun x => x.severity == Severity.warning) <;>
          simp [overallOutcome, List.any_cons, hc, ha, hb, hw, sevMax, sevRank]

theorem overallOutcome_eq_maxSeverity (l : List CheckResult) :
    overallOutcome l = maxSeverity l := by
  induction l with
  | nil => rfl
  | cons c t ih => rw [overallOutcome_cons, ih]; rfl

theorem sevRank_le_max_left (a b : Severity) : sevRank a ≤ sevRank (sevMax a b) := by
  unfold sevMax; split <;> omega

theorem sevRank_le_max_right (a b : Severity) : sevRank b ≤ sevRank (sevMax a b) := by
  unfold sevMax; split <;> omega

theorem maxSeverity_bound (l : List CheckResult) :
    ∀ c ∈ l, sevRank c.severity ≤ sevRank (maxSeverity l) := by
  induction l with
  | nil => intro c hc; cases hc
  | cons d t ih =>
      intro c hc
      rcases List.mem_cons.mp hc with h | h
      · subst h; exact sevRank_le_max_left _ _
      · calc sevRank c.severity ≤ sevRank (maxSeverity t) := ih c h
          _ ≤ sevRank (sevMax d.severity (maxSeverity t)) := sevRank_le_max_right _ _

theorem maxSeverity_attained (l : List CheckResult) (h : l ≠ []) :
    ∃ c ∈ l, c.severity = maxSeverity l := by
  induction l with
  | nil => exact absurd rfl h
  | cons d t ih =>
      show ∃ c ∈ d :: t, c.severity = sevMax d.severity (maxSeverity t)
      by_cases hlt : sevRank d.severity < sevRank (maxSeverity t)
      · have ht : t ≠ [] := by
          intro he; subst he
          simp [maxSeverity, sevRank] at hlt
        obtain ⟨c, hc, hcs⟩ := ih ht
        exact ⟨c, List.mem_cons_of_mem _ hc, by rw [hcs]; unfold sevMax; rw [if_pos hlt]⟩
      · exact ⟨d, List.mem_cons_self _ _, by unfold sevMax; rw [if_neg hlt]⟩

/-- What it means for m to be the maximum severity occurring in l under the
total order hard > soft > warning > pass, with pass as the value for the
empty list: m bounds every severity in l, and is attained when l is
non-empty. -/
def IsMaxSeverity (l : List CheckResult) (m : Severity) : Prop :=
  (∀ c ∈ l, sevRank c.severity ≤ sevRank m)
  ∧ (l = [] → m = Severity.pass)
  ∧ (l ≠ [] → ∃ c ∈ l, c.severity = m)

/-! Per-rule characterisation infrastructure: each rule emits results of one
fixed name, so filtering the engine output by name isolates one rule. -/

/-- Entries of a result list carrying a given check name. -/
def namedEntries (l : List CheckResult) (n : String) : List CheckResult :=
  l.filter (fun r => r.name == n)

theorem namedEntries_append (l₁ l₂ : List CheckResult) (n : String) :
    namedEntries (l₁ ++ l₂) n = namedEntries l₁ n ++ namedEntries l₂ n := by
  simp [namedEntries]

theorem namedEntries_nil_of (l : List CheckResult) (n : String)
    (h : ∀ r ∈ l, r.name ≠ n) : namedEntries l n = [] := by
  unfold namedEntries
  rw [List.filter_eq_nil_iff]
  intro a ha
  simp [h a ha]

theorem namedEntries_all (l : List CheckResult) (n : String)
    (h : ∀ r ∈ l, r.name = n) : namedEntries l n = l := by
  unfold namedEntries
  rw [List.filter_eq_self]
  intro a ha
  simp [h a ha]

theorem restrictedCheck_name (rd : ReferenceData) (s : Security) :
    ∀ r ∈ restrictedCheck rd s, r.name = "Restricted Security" := by
  unfold restrictedCheck; split_ifs <;> simp

theorem residencyCheck_name (rd : ReferenceData) (s : Security) :
    ∀ r ∈ residencyCheck rd s, r.name = "Client Residency" := by
  unfold residencyCheck
  split
  · split_ifs <;> simp
  · simp

theorem cashCheck_name (rd : ReferenceData) (side : Side) (ca : String) (amt : ℚ) :
    ∀ r ∈ cashCheck rd side ca amt, r.name = "Cash Sufficiency" := by
  unfold cashCheck; split_ifs <;> simp

theorem concentrationCheck_name (rd : ReferenceData) (s : Security) (side : Side)
    (ia : String) (amt : ℚ) :
    ∀ r ∈ concentrationCheck rd s side ia amt, r.name = "Concentration Limit" := by
  unfold concentrationCheck; split_ifs <;> simp

theorem orderSizeCheck_name (amt : ℚ) :
    ∀ r ∈ orderSizeCheck amt, r.name = "Order Size" := by
  unfold orderSizeCheck; split_ifs <;> simp

theorem priceDeviationCheck_name (s : Security) (ot : String) (lp : NumInput) :
    ∀ r ∈ priceDeviationCheck s ot lp, r.name = "Price Deviation" := by
  unfold priceDeviationCheck
  split
  · split
    · simp
    · simp
    · split_ifs <;> simp
  · simp

/-- When the guard clause passes, the engine output is the concatenation of
the six rule blocks in source order. -/
theorem runChecks_some (rd : ReferenceData) (s : Security) (side : Side) (amount : ℚ)
    (lp : NumInput) (ot ia ca : String) (h : 0 < amount) :
    runChecks rd { security := some s, side := side, orderAmount := amount,
                   limitPrice := lp, orderType := ot, investmentAccount := ia, cashAccount := ca }
      = restrictedCheck rd s ++ residencyCheck rd s ++ cashCheck rd side ca amount
        ++ concentrationCheck rd s side ia amount ++ orderSizeCheck amount
        ++ priceDeviationCheck s ot lp := by
  simp only [runChecks]
  rw [if_neg (not_le.mpr h)]

/-! Concrete inputs used to instantiate the theorems below.  The securities
and account names come from the MOCK_SECURITIES table of the order dialog
and the mock account tables. -/

/-- Apple equity of the MOCK_SECURITIES table. -/
def appleSec : Security :=
  { symbol := "AAPL", name := "Apple Inc.", type := "Equity", price := 189.84 }

/-- The restricted municipal bond of the MOCK_SECURITIES table. -/
def muniSec : Security :=
  { symbol := "MUNI7Y", name := "Municipal Bond 7Y", type := "Bond", price := 98.80 }

/-- A fully populated buy order used to instantiate the outcome theorem. -/
def ctxOutcome : PreTradeChecksProps :=
  { security := some appleSec, side := Side.Buy, orderAmount := 80000,
    limitPrice := NumInput.empty, orderType := "Market",
    investmentAccount := "INV-001 Main", cashAccount := "CASH-001 USD" }

/-- An order with no security chosen. -/
def ctxNoSecurity : PreTradeChecksProps :=
  { security := none, side := Side.Buy, orderAmount := 100,
    limitPrice := NumInput.empty, orderType := "Market",
    investmentAccount := "", cashAccount := "" }

/-- C1: for every OrderContext, the OverallOutcome returned by the engine is
the maximum severity occurring in the returned CheckResult list under the
total order hard > soft > warning > pass (any hard result makes the outcome
hard, otherwise any soft makes it soft, otherwise any warning makes it
warning), and the outcome for the empty list is pass. -/
theorem outcome_is_max_severity_C1 (rd : ReferenceData) (p : PreTradeChecksProps) :
    IsMaxSeverity (runChecks rd p) (overallOutcome (runChecks rd p)) := by
  refine ⟨?_, ?_, ?_⟩
  · intro c hc
    rw [overallOutcome_eq_maxSeverity]
    exact maxSeverity_bound _ c hc
  · intro h; rw [h]; rfl
  · intro h
    rw [overallOutcome_eq_maxSeverity]
    exact maxSeverity_attained _ h

/-- Witness for C1 at a concrete order context. -/
theorem outcome_is_max_severity_C1_witness :
    IsMaxSeverity (runChecks mockRefData ctxOutcome)
      (overallOutcome (runChecks mockRefData ctxOutcome)) :=
  outcome_is_max_severity_C1 mockRefData ctxOutcome

/-- C2: for every OrderContext in which security is absent or orderAmount is
not positive, the engine returns the empty result list, whatever the other
order fields and the reference data are. -/
theorem guard_clause_empty_C2 (rd : ReferenceData) (p : PreTradeChecksProps)
    (h : p.security = none ∨ p.orderAmount ≤ 0) : runChecks rd p = [] := by
  rcases h with h | h
  · simp [runChecks, h]
  · cases hs : p.security with
    | none => simp [runChecks, hs]
    | some s => simp [runChecks, hs, h]

/-- Witness for C2: no security chosen gives the empty result list. -/
theorem guard_clause_empty_C2_witness : runChecks mockRefData ctxNoSecurity = [] :=
  guard_clause_empty_C2 mockRefData ctxNoSecurity (Or.inl rfl)

/-- Filtering by a name that a rule never uses removes the whole rule block. -/
theorem namedEntries_nil_of_name (l : List CheckResult) (m n : String)
    (hl : ∀ r ∈ l, r.name = m) (hmn : m ≠ n) : namedEntries l n = [] :=
  namedEntries_nil_of l n (fun r hr => by rw [hl r hr]; exact hmn)

/-- The Restricted Security rule, as claim C4 reads it: a hard entry with the
specified message is in the output whenever the symbol is restricted, and no
entry of that name appears otherwise. -/
def RestrictedRuleSpec (rd : ReferenceData) (p : PreTradeChecksProps) (s : Security) : Prop :=
  (s.symbol ∈ rd.restricted →
     ({ name := "Restricted Security", severity := Severity.hard,
        message := s.symbol ++ " is on the restricted securities list and cannot be traded." } : CheckResult)
       ∈ runChecks rd p)
  ∧ (s.symbol ∉ rd.restricted → namedEntries (runChecks rd p) "Restricted Security" = [])

/-- C4: whenever the guard clause passes, a hard Restricted Security result
with the specified message is present exactly when the symbol is in the
restricted list, independently of side, amount, limit price, order type,
accounts, and the rest of the reference data. -/
theorem restricted_rule_C4 (rd : ReferenceData) (s : Security) (side : Side)
    (amount : ℚ) (lp : NumInput) (ot ia ca : String) (h : 0 < amount) :
    RestrictedRuleSpec rd
      { security := some s, side := side, orderAmount := amount, limitPrice := lp,
        orderType := ot, investmentAccount := ia, cashAccount := ca } s := by
  unfold RestrictedRuleSpec
  rw [runChecks_some rd s side amount lp ot ia ca h]
  constructor
  · intro hmem
    simp [restrictedCheck, hmem, List.mem_append]
  · intro hnm
    repeat rw [namedEntries_append]
    rw [namedEntries_nil_of_name _ _ _ (residencyCheck_name rd s) (by decide),
        namedEntries_nil_of_name _ _ _ (cashCheck_name rd side ca amount) (by decide),
        namedEntries_nil_of_name _ _ _ (concentrationCheck_name rd s side ia amount) (by decide),
        namedEntries_nil_of_name _ _ _ (orderSizeCheck_name amount) (by decide),
        namedEntries_nil_of_name _ _ _ (priceDeviationCheck_name s ot lp) (by decide)]
    simp [restrictedCheck, hnm, namedEntries]

/-- Restricted sell order on the municipal bond, with no accounts chosen. -/
def ctxMuni : PreTradeChecksProps :=
  { security := some muniSec, side := Side.Sell, orderAmount := 5000,
    limitPrice := NumInput.empty, orderType := "Market",
    investmentAccount := "", cashAccount := "" }

/-- Witness for C4 on the restricted symbol MUNI7Y. -/
theorem restricted_rule_C4_witness : RestrictedRuleSpec mockRefData ctxMuni muniSec :=
  restricted_rule_C4 mockRefData muniSec Side.Sell 5000 NumInput.empty "Market" "" ""
    (by norm_num)

/-- The Cash Sufficiency rule, as claim C5 reads it: present exactly when the
side is Buy and a cash account is chosen, hard when the amount exceeds the
available balance (unknown account defaulting to 0) and pass otherwise. -/
def CashRuleSpec (rd : ReferenceData) (p : PreTradeChecksProps) : Prop :=
  (p.side = Side.Buy ∧ p.cashAccount ≠ "" →
     (namedEntries (runChecks rd p) "Cash Sufficiency").map (fun r => r.severity)
       = [if (rd.cashBalance p.cashAccount).getD 0 < p.orderAmount
          then Severity.hard else Severity.pass])
  ∧ ((p.side = Side.Sell ∨ p.cashAccount = "") →
       namedEntries (runChecks rd p) "Cash Sufficiency" = [])

/-- Buy of 80000 against the 75000 balance of CASH-001 USD. -/
def ctxCash80k : PreTradeChecksProps :=
  { security := some appleSec, side := Side.Buy, orderAmount := 80000,
    limitPrice := NumInput.empty, orderType := "Market",
    investmentAccount := "", cashAccount := "CASH-001 USD" }

/-- Buy of 50000 against the 75000 balance of CASH-001 USD. -/
def ctxCash50k : PreTradeChecksProps :=
  { security := some appleSec, side := Side.Buy, orderAmount := 50000,
    limitPrice := NumInput.empty, orderType := "Market",
    investmentAccount := "", cashAccount := "CASH-001 USD" }

/-- C5: the Cash Sufficiency check appears exactly when side is Buy and a
cash account is chosen; with available defaulting to 0 for an unknown
account, an amount above available gives a hard result and otherwise a pass
result; concretely, with cashBalance CASH-001 USD at 75000 a Buy of 80000
gives a hard result whose message contains 80,000.00 and 75,000.00, and a
Buy of 50000 gives a pass result whose message contains 75,000.00. -/
theorem cash_sufficiency_C5 :
    (∀ (rd : ReferenceData) (s : Security) (side : Side) (amount : ℚ)
       (lp : NumInput) (ot ia ca : String), 0 < amount →
       CashRuleSpec rd
         { security := some s, side := side, orderAmount := amount, limitPrice := lp,
           orderType := ot, investmentAccount := ia, cashAccount := ca })
    ∧ (∃ r ∈ runChecks mockRefData ctxCash80k, r.name = "Cash Sufficiency"
         ∧ r.severity = Severity.hard
         ∧ containsSub r.message "80,000.00" = true
         ∧ containsSub r.message "75,000.00" = true)
    ∧ (∃ r ∈ runChecks mockRefData ctxCash50k, r.name = "Cash Sufficiency"
         ∧ r.severity = Severity.pass
         ∧ containsSub r.message "75,000.00" = true) := by
  refine ⟨?_, of_decide_eq_true (by with_unfolding_all rfl),
    of_decide_eq_true (by with_unfolding_all rfl)⟩
  intro rd s side amount lp ot ia ca h
  unfold CashRuleSpec
  dsimp only
  rw [runChecks_some rd s side amount lp ot ia ca h]
  repeat rw [namedEntries_append]
  rw [namedEntries_nil_of_name _ _ _ (restrictedCheck_name rd s) (by decide),
      namedEntries_nil_of_name _ _ _ (residencyCheck_name rd s) (by decide),
      namedEntries_nil_of_name _ _ _ (concentrationCheck_name rd s side ia amount) (by decide),
      namedEntries_nil_of_name _ _ _ (orderSizeCheck_name amount) (by decide),
      namedEntries_nil_of_name _ _ _ (priceDeviationCheck_name s ot lp) (by decide),
      namedEntries_all _ _ (cashCheck_name rd side ca amount)]
  simp only [List.nil_append, List.append_nil]
  constructor
  · rintro ⟨hbuy, hca⟩
    subst hbuy
    unfold cashCheck
    rw [if_pos ⟨rfl, hca⟩]
    split_ifs with h2
    · simp
    · simp
  · rintro (hsell | hca)
    · subst hsell
      simp [cashCheck]
    · simp [cashCheck, hca]

/-- Witness for C5 at the 80000 buy. -/
theorem cash_sufficiency_C5_witness : CashRuleSpec mockRefData ctxCash80k :=
  cash_sufficiency_C5.1 mockRefData appleSec Side.Buy 80000 NumInput.empty "Market" ""
    "CASH-001 USD" (by norm_num)

/-- The Concentration Limit rule, as claim C6 reads it: present exactly when
an investment account is chosen, hard exactly when the post-trade
concentration exceeds 20 percent. -/
def ConcentrationRuleSpec (rd : ReferenceData) (p : PreTradeChecksProps) (s : Security) : Prop :=
  (p.investmentAccount ≠ "" →
     (namedEntries (runChecks rd p) "Concentration Limit").map (fun r => r.severity)
       = [if concentrationOf rd s p.side p.investmentAccount p.orderAmount > 20
          then Severity.hard else Severity.pass])
  ∧ (p.investmentAccount = "" →
       namedEntries (runChecks rd p) "Concentration Limit" = [])

/-- Buy of 25000 AAPL against account INV-001 Main (holding 80000, portfolio 500000). -/
def ctxConc25k : PreTradeChecksProps :=
  { security := some appleSec, side := Side.Buy, orderAmount := 25000,
    limitPrice := NumInput.empty, orderType := "Market",
    investmentAccount := "INV-001 Main", cashAccount := "" }

/-- Buy of 10000 AAPL against account INV-001 Main. -/
def ctxConc10k : PreTradeChecksProps :=
  { security := some appleSec, side := Side.Buy, orderAmount := 10000,
    limitPrice := NumInput.empty, orderType := "Market",
    investmentAccount := "INV-001 Main", cashAccount := "" }

/-- C6: the Concentration Limit check appears exactly when an investment
account is chosen, computes newExposure as currentHolding plus or minus the
amount, concentration as newExposure over portfolioValue times 100 (0 when
the portfolio value is not positive), and is hard exactly above 20 percent;
concretely on INV-001 Main with 80000 held in AAPL, a buy of 25000 gives
concentration 21.0 percent and a hard result, a buy of 10000 gives 18.0
percent and a pass result. -/
theorem concentration_rule_C6 :
    (∀ (rd : ReferenceData) (s : Security) (side : Side) (amount : ℚ)
       (lp : NumInput) (ot ia ca : String), 0 < amount →
       ConcentrationRuleSpec rd
         { security := some s, side := side, orderAmount := amount, limitPrice := lp,
           orderType := ot, investmentAccount := ia, cashAccount := ca } s)
    ∧ newExposureOf mockRefData appleSec Side.Buy "INV-001 Main" 25000 = 105000
    ∧ concentrationOf mockRefData appleSec Side.Buy "INV-001 Main" 25000 = 21
    ∧ (∃ r ∈ runChecks mockRefData ctxConc25k, r.name = "Concentration Limit"
         ∧ r.severity = Severity.hard ∧ containsSub r.message "21.0" = true)
    ∧ newExposureOf mockRefData appleSec Side.Buy "INV-001 Main" 10000 = 90000
    ∧ concentrationOf mockRefData appleSec Side.Buy "INV-001 Main" 10000 = 18
    ∧ (∃ r ∈ runChecks mockRefData ctxConc10k, r.name = "Concentration Limit"
         ∧ r.severity = Severity.pass ∧ containsSub r.message "18.0" = true) := by
  have hnew25 : newExposureOf mockRefData appleSec Side.Buy "INV-001 Main" 25000 = 105000 := by
    norm_num [newExposureOf, mockRefData, mockHoldings, appleSec]
  have hnew10 : newExposureOf mockRefData appleSec Side.Buy "INV-001 Main" 10000 = 90000 := by
    norm_num [newExposureOf, mockRefData, mockHoldings, appleSec]
  have hconc25 : concentrationOf mockRefData appleSec Side.Buy "INV-001 Main" 25000 = 21 := by
    unfold concentrationOf
    rw [hnew25]
    norm_num [mockRefData, mockPortfolioValue]
  have hconc10 : concentrationOf mockRefData appleSec Side.Buy "INV-001 Main" 10000 = 18 := by
    unfold concentrationOf
    rw [hnew10]
    norm_num [mockRefData, mockPortfolioValue]
  have hcc25 : concentrationCheck mockRefData appleSec Side.Buy "INV-001 Main" 25000
      = [{ name := "Concentration Limit", severity := Severity.hard,
           message := "Post-trade concentration of " ++ formatFixed1 21
             ++ "% exceeds 20% limit for " ++ appleSec.symbol ++ "." }] := by
    unfold concentrationCheck
    rw [hconc25, if_pos (by decide), if_pos (by norm_num)]
  have hcc10 : concentrationCheck mockRefData appleSec Side.Buy "INV-001 Main" 10000
      = [{ name := "Concentration Limit", severity := Severity.pass,
           message := "Post-trade concentration: " ++ formatFixed1 18
             ++ "% (limit: 20%)" }] := by
    unfold concentrationCheck
    rw [hconc10, if_pos (by decide), if_neg (by norm_num)]
  have hr1 : restrictedCheck mockRefData appleSec = [] := by decide
  have hr2 : residencyCheck mockRefData appleSec = [] := by decide
  have hr3a : cashCheck mockRefData Side.Buy "" (25000 : ℚ) = [] := by decide
  have hr3b : cashCheck mockRefData Side.Buy "" (10000 : ℚ) = [] := by decide
  have hr5a : orderSizeCheck (25000 : ℚ)
      = [{ name := "Order Size", severity := Severity.pass,
           message := "Order value within threshold" }] := by
    unfold orderSizeCheck
    rw [if_neg (by norm_num)]
  have hr5b : orderSizeCheck (10000 : ℚ)
      = [{ name := "Order Size", severity := Severity.pass,
           message := "Order value within threshold" }] := by
    unfold orderSizeCheck
    rw [if_neg (by norm_num)]
  have hr6 : priceDeviationCheck appleSec "Market" NumInput.empty = [] := by decide
  have hrun25 : runChecks mockRefData ctxConc25k
      = [{ name := "Concentration Limit", severity := Severity.hard,
           message := "Post-trade concentration of " ++ formatFixed1 21
             ++ "% exceeds 20% limit for " ++ appleSec.symbol ++ "." },
         { name := "Order Size", severity := Severity.pass,
           message := "Order value within threshold" }] := by
    show runChecks mockRefData
      { security := some appleSec, side := Side.Buy, orderAmount := 25000,
        limitPrice := NumInput.empty, orderType := "Market",
        investmentAccount := "INV-001 Main", cashAccount := "" } = _
    rw [runChecks_some mockRefData appleSec Side.Buy 25000 NumInput.empty "Market"
        "INV-001 Main" "" (by norm_num), hr1, hr2, hr3a, hcc25, hr5a, hr6]
    rfl
  have hrun10 : runChecks mockRefData ctxConc10k
      = [{ name := "Concentration Limit", severity := Severity.pass,
           message := "Post-trade concentration: " ++ formatFixed1 18
             ++ "% (limit: 20%)" },
         { name := "Order Size", severity := Severity.pass,
           message := "Order value within threshold" }] := by
    show runChecks mockRefData
      { security := some appleSec, side := Side.Buy, orderAmount := 10000,
        limitPrice := NumInput.empty, orderType := "Market",
        investmentAccount := "INV-001 Main", cashAccount := "" } = _
    rw [runChecks_some mockRefData appleSec Side.Buy 10000 NumInput.empty "Market"
        "INV-001 Main" "" (by norm_num), hr1, hr2, hr3b, hcc10, hr5b, hr6]
    rfl
  refine ⟨?_, hnew25, hconc25, ?_, hnew10, hconc10, ?_⟩
  case refine_2 =>
    refine ⟨{ name := "Concentration Limit", severity := Severity.hard,
              message := "Post-trade concentration of " ++ formatFixed1 21
                ++ "% exceeds 20% limit for " ++ appleSec.symbol ++ "." },
            ?_, rfl, rfl, ?_⟩
    · rw [hrun25]; exact List.mem_cons_self _ _
    · with_unfolding_all rfl
  case refine_3 =>
    refine ⟨{ name := "Concentration Limit", severity := Severity.pass,
              message := "Post-trade concentration: " ++ formatFixed1 18
                ++ "% (limit: 20%)" },
            ?_, rfl, rfl, ?_⟩
    · rw [hrun10]; exact List.mem_cons_self _ _
    · with_unfolding_all rfl
  intro rd s side amount lp ot ia ca h
  unfold ConcentrationRuleSpec
  dsimp only
  rw [runChecks_some rd s side amount lp ot ia ca h]
  repeat rw [namedEntries_append]
  rw [namedEntries_nil_of_name _ _ _ (restrictedCheck_name rd s) (by decide),
      namedEntries_nil_of_name _ _ _ (residencyCheck_name rd s) (by decide),
      namedEntries_nil_of_name _ _ _ (cashCheck_name rd side ca amount) (by decide),
      namedEntries_nil_of_name _ _ _ (orderSizeCheck_name amount) (by decide),
      namedEntries_nil_of_name _ _ _ (priceDeviationCheck_name s ot lp) (by decide),
      namedEntries_all _ _ (concentrationCheck_name rd s side ia amount)]
  simp only [List.nil_append, List.append_nil]
  constructor
  · intro hia
    unfold concentrationCheck
    rw [if_pos hia]
    split_ifs with h2 <;> simp
  · intro hia
    simp [concentrationCheck, hia]

/-- Witness for C6 at the 25000 buy. -/
theorem concentration_rule_C6_witness : ConcentrationRuleSpec mockRefData ctxConc25k appleSec :=
  concentration_rule_C6.1 mockRefData appleSec Side.Buy 25000 NumInput.empty "Market"
    "INV-001 Main" "" (by norm_num)

/-- The Order Size rule, as claim C7 reads it: always present once the guard
clause passes, soft strictly above the 100000 threshold and pass otherwise. -/
def OrderSizeRuleSpec (rd : ReferenceData) (p : PreTradeChecksProps) : Prop :=
  (namedEntries (runChecks rd p) "Order Size").map (fun r => r.severity)
    = [if p.orderAmount > 100000 then Severity.soft else Severity.pass]

/-- Sell of exactly 100001, one past the order-size threshold. -/
def ctxSize100001 : PreTradeChecksProps :=
  { security := some appleSec, side := Side.Sell, orderAmount := 100001,
    limitPrice := NumInput.empty, orderType := "Market",
    investmentAccount := "", cashAccount := "" }

/-- Sell of exactly 100000, the order-size threshold itself. -/
def ctxSize100000 : PreTradeChecksProps :=
  { security := some appleSec, side := Side.Sell, orderAmount := 100000,
    limitPrice := NumInput.empty, orderType := "Market",
    investmentAccount := "", cashAccount := "" }

/-- C7: whenever the guard clause passes the Order Size rule is evaluated,
with a strict inequality at the fixed 100000 threshold: above it the entry
is soft, at the threshold and below it is pass; concretely 100001 gives
soft and exactly 100000 gives pass. -/
theorem order_size_rule_C7 :
    (∀ (rd : ReferenceData) (s : Security) (side : Side) (amount : ℚ)
       (lp : NumInput) (ot ia ca : String), 0 < amount →
       OrderSizeRuleSpec rd
         { security := some s, side := side, orderAmount := amount, limitPrice := lp,
           orderType := ot, investmentAccount := ia, cashAccount := ca })
    ∧ (namedEntries (runChecks mockRefData ctxSize100001) "Order Size").map
        (fun r => r.severity) = [Severity.soft]
    ∧ (namedEntries (runChecks mockRefData ctxSize100000) "Order Size").map
        (fun r => r.severity) = [Severity.pass] := by
  refine ⟨?_, of_decide_eq_true (by with_unfolding_all rfl),
    of_decide_eq_true (by with_unfolding_all rfl)⟩
  intro rd s side amount lp ot ia ca h
  unfold OrderSizeRuleSpec
  dsimp only
  rw [runChecks_some rd s side amount lp ot ia ca h]
  repeat rw [namedEntries_append]
  rw [namedEntries_nil_of_name _ _ _ (restrictedCheck_name rd s) (by decide),
      namedEntries_nil_of_name _ _ _ (residencyCheck_name rd s) (by decide),
      namedEntries_nil_of_name _ _ _ (cashCheck_name rd side ca amount) (by decide),
      namedEntries_nil_of_name _ _ _ (concentrationCheck_name rd s side ia amount) (by decide),
      namedEntries_nil_of_name _ _ _ (priceDeviationCheck_name s ot lp) (by decide),
      namedEntries_all _ _ (orderSizeCheck_name amount)]
  simp only [List.nil_append, List.append_nil]
  unfold orderSizeCheck
  split_ifs with h2 <;> simp

/-- Witness for C7 just above the threshold. -/
theorem order_size_rule_C7_witness : OrderSizeRuleSpec mockRefData ctxSize100001 :=
  order_size_rule_C7.1 mockRefData appleSec Side.Sell 100001 NumInput.empty "Market" "" ""
    (by norm_num)

/-- A Limit order whose limit-price string does not parse as a number. -/
def ctxNanLimit : PreTradeChecksProps :=
  { security := some appleSec, side := Side.Buy, orderAmount := 5000,
    limitPrice := NumInput.nan "abc", orderType := "Limit",
    investmentAccount := "", cashAccount := "" }

/-- C3 counterexample: on a Limit order with the unparsable limit price
"abc", the engine does emit a Price Deviation entry (a pass one), so the
claim that no Price Deviation result of any severity appears is false. -/
theorem price_deviation_nan_counterexample_C3 :
    ctxNanLimit.orderType = "Limit" ∧ ctxNanLimit.limitPrice = NumInput.nan "abc"
    ∧ ∃ r ∈ runChecks mockRefData ctxNanLimit,
        r.name = "Price Deviation" ∧ r.severity = Severity.pass :=
  of_decide_eq_true (by with_unfolding_all rfl)

/-- The Price Deviation rule on an unparsable limit price, as the code
behaves: exactly one entry of that name, of severity pass. -/
def PriceDevNanSpec (rd : ReferenceData) (p : PreTradeChecksProps) : Prop :=
  (namedEntries (runChecks rd p) "Price Deviation").map (fun r => r.severity)
    = [Severity.pass]

/-- C3 amended: for every OrderContext with orderType Limit and a non-empty
limitPrice string that does not parse as a number, the engine never raises
an error (the embedding is total) and the Price Deviation rule takes its
pass branch — parseFloat yields NaN, the NaN > 3 comparison is false — so
exactly one pass Price Deviation entry appears, never a warning. -/
theorem price_deviation_nan_C3 (rd : ReferenceData) (s : Security) (side : Side)
    (amount : ℚ) (str : String) (ia ca : String) (h : 0 < amount) :
    PriceDevNanSpec rd
      { security := some s, side := side, orderAmount := amount,
        limitPrice := NumInput.nan str, orderType := "Limit",
        investmentAccount := ia, cashAccount := ca } := by
  unfold PriceDevNanSpec
  rw [runChecks_some rd s side amount (NumInput.nan str) "Limit" ia ca h]
  repeat rw [namedEntries_append]
  rw [namedEntries_nil_of_name _ _ _ (restrictedCheck_name rd s) (by decide),
      namedEntries_nil_of_name _ _ _ (residencyCheck_name rd s) (by decide),
      namedEntries_nil_of_name _ _ _ (cashCheck_name rd side ca amount) (by decide),
      namedEntries_nil_of_name _ _ _ (concentrationCheck_name rd s side ia amount) (by decide),
      namedEntries_nil_of_name _ _ _ (orderSizeCheck_name amount) (by decide),
      namedEntries_all _ _ (priceDeviationCheck_name s "Limit" (NumInput.nan str))]
  simp [priceDeviationCheck]

/-- Witness for the amended C3 at the concrete unparsable limit price. -/
theorem price_deviation_nan_C3_witness : PriceDevNanSpec mockRefData ctxNanLimit :=
  price_deviation_nan_C3 mockRefData appleSec Side.Buy 5000 "abc" "" "" (by norm_num)

/-! The order dialog's submit gating (src/unnamed/part_000, first document,
CreateOrderDialog): formComplete and canSubmit from lines 138-139 and the
button's disabled flag from lines 432-433.  The outcome value consumed by
canSubmit is the one produced by usePreTradeOutcome; it is passed here as an
argument, exactly as the component receives it from the hook. -/

/-- The in-progress order fields that the submit gate reads. -/
structure OrderDialogState where
  selectedSecurity : Option Security
  side : Side
  orderType : String
  tif : String
  inputValue : NumInput
  limitPrice : NumInput
  investmentAccount : String
  cashAccount : String
deriving DecidableEq, Repr

/-- JS truthiness of the order-value input string: only the empty string is falsy. -/
def truthyNum : NumInput → Bool
  | NumInput.empty => false
  | NumInput.num _ => true
  | NumInput.nan _ => true

/-- The test parseFloat(inputValue) > 0: NaN compares false, so only a
string parsing to a positive number passes. -/
def parsePos : NumInput → Bool
  | NumInput.num q => decide (0 < q)
  | NumInput.empty => false
  | NumInput.nan _ => false

/-- Line 138: formComplete = selectedSecurity && inputValue &&
parseFloat(inputValue) > 0 && investmentAccount && cashAccount. -/
def formComplete (st : OrderDialogState) : Bool :=
  st.selectedSecurity.isSome && truthyNum st.inputValue && parsePos st.inputValue
    && !(st.investmentAccount == "") && !(st.cashAccount == "")

/-- Line 139: canSubmit = formComplete && outcome !== "hard". -/
def canSubmit (st : OrderDialogState) (outcome : Severity) : Bool :=
  formComplete st && !(outcome == Severity.hard)

/-- Lines 432-433: the submit button carries disabled = !canSubmit. -/
def submitDisabled (st : OrderDialogState) (outcome : Severity) : Bool :=
  !(canSubmit st outcome)

/-- C8: the submit action is enabled exactly when a security is chosen, the
entered amount parses to a positive number, both accounts are chosen, and
the engine outcome is not hard; in particular a hard outcome, or any missing
required field, disables it. -/
theorem submit_gating_C8 (st : OrderDialogState) (oc : Severity) :
    (submitDisabled st oc = false ↔
      (st.selectedSecurity.isSome = true
        ∧ (∃ q, st.inputValue = NumInput.num q ∧ 0 < q)
        ∧ st.investmentAccount ≠ "" ∧ st.cashAccount ≠ "" ∧ oc ≠ Severity.hard))
    ∧ (oc = Severity.hard → submitDisabled st oc = true)
    ∧ (formComplete st = false → submitDisabled st oc = true) := by
  refine ⟨?_, ?_, ?_⟩
  · unfold submitDisabled canSubmit formComplete truthyNum parsePos
    cases st.inputValue
    case empty => simp
    case num q => simp [decide_eq_true_iff]; tauto
    case nan s => simp
  · intro h
    subst h
    simp [submitDisabled, canSubmit]
  · intro h
    simp [submitDisabled, canSubmit, h]

/-- A complete form used to instantiate the gating theorem. -/
def stDialogDemo : OrderDialogState :=
  { selectedSecurity := some appleSec, side := Side.Buy, orderType := "Market",
    tif := "Day", inputValue := NumInput.num 80000, limitPrice := NumInput.empty,
    investmentAccount := "INV-001 Main", cashAccount := "CASH-001 USD" }

/-- Witness for C8: a hard outcome disables submission even on a complete form. -/
theorem submit_gating_C8_witness : submitDisabled stDialogDemo Severity.hard = true :=
  (submit_gating_C8 stDialogDemo Severity.hard).2.1 rfl

/-! The post-submission warning derivation of src/unnamed/part_001:
generateWarnings (lines 16-40) and the urgency derivation of
generateMockApprovals (line 97). -/

/-- Warning kinds, from src/src/types/approval.ts (interface Warning). -/
inductive WarningType where
  | large_order
  | price_deviation
  | unusual_security
deriving DecidableEq, Repr

/-- One warning entry. -/
structure Warning where
  type : WarningType
  message : String
deriving DecidableEq, Repr

/-- The fields of the finalized order that generateWarnings reads (the source
passes the whole pre-warning order record and reads only these four). -/
structure OrderDraft where
  symbol : String
  qty : ℚ
  price : ℚ
  limitPrice : Option ℚ
deriving DecidableEq, Repr

/-- The local const unusual of generateWarnings, line 32. -/
def unusualSecurities : List String := ["CORP5Y", "US10Y"]

/-- generateWarnings, lines 16-40.  The JS condition order.limitPrice && ...
is a truthiness test, so a limit price of 0 never fires the deviation
warning; with a zero market price JS divides by zero, giving Infinity (limit
nonzero), which exceeds 0.03, so that disjunct is written out explicitly. -/
def generateWarnings (o : OrderDraft) : List Warning :=
  (if o.qty * o.price > 100000 then
     [{ type := WarningType.large_order,
        message := "Order value $" ++ formatCurrency2 (o.qty * o.price)
          ++ " exceeds $100,000 threshold." }]
   else [])
  ++ (match o.limitPrice with
      | some lp =>
          if lp ≠ 0 ∧ (o.price = 0 ∨ |lp - o.price| / o.price > 3 / 100) then
            [{ type := WarningType.price_deviation,
               message := "Limit price deviates "
                 ++ formatFixed1 (|lp - o.price| / o.price * 100)
                 ++ "% from market price." }]
          else []
      | none => [])
  ++ (if o.symbol ∈ unusualSecurities then
        [{ type := WarningType.unusual_security,
           message := o.symbol ++ " is a fixed-income instrument requiring additional review." }]
      else [])

/-- Urgency values of an approval order. -/
inductive Urgency where
  | normal
  | high
deriving DecidableEq, Repr

/-- The urgency derivation of generateMockApprovals, line 97:
warnings.length >= 2 ? "high" : "normal". -/
def deriveUrgency (ws : List Warning) : Urgency :=
  if ws.length ≥ 2 then Urgency.high else Urgency.normal

/-- The condition under which claim C9, read literally, says the
price_deviation warning is emitted: a limitPrice is set (present) and
deviates more than 3 percent from the price.  Stated from the claim's words,
to compare with generateWarnings. -/
def claimC9PriceDevCondition (o : OrderDraft) : Prop :=
  ∃ lp, o.limitPrice = some lp ∧ |lp - o.price| / o.price > 3 / 100

/-- An order whose limit price is set but equal to 0. -/
def draftZeroLimit : OrderDraft :=
  { symbol := "AAPL", qty := 10, price := 100, limitPrice := some 0 }

/-- C9 counterexample: with limitPrice set to 0 and price 100, the limit
price is set and deviates 100 percent from the price, yet generateWarnings
emits nothing, because the JS truthiness test order.limitPrice treats 0 as
absent.  So the claim's iff for price_deviation is false as stated. -/
theorem warnings_counterexample_C9 :
    claimC9PriceDevCondition draftZeroLimit
    ∧ generateWarnings draftZeroLimit = [] := by
  constructor
  · exact ⟨0, rfl, by norm_num [draftZeroLimit]⟩
  · norm_num [generateWarnings, draftZeroLimit, unusualSecurities]
    decide

/-- What generateWarnings emits, rule by rule, together with the derived
urgency, for orders with a positive market price. -/
def WarnSpec (o : OrderDraft) : Prop :=
  ((∃ w ∈ generateWarnings o, w.type = WarningType.large_order) ↔ o.qty * o.price > 100000)
  ∧ ((∃ w ∈ generateWarnings o, w.type = WarningType.price_deviation) ↔
       (∃ lp, o.limitPrice = some lp ∧ lp ≠ 0 ∧ |lp - o.price| / o.price > 3 / 100))
  ∧ ((∃ w ∈ generateWarnings o, w.type = WarningType.unusual_security) ↔
       o.symbol ∈ unusualSecurities)
  ∧ (deriveUrgency (generateWarnings o) = Urgency.high ↔ 2 ≤ (generateWarnings o).length)

/-- C9 amended: for every finalized order with positive market price,
large_order is emitted iff qty times price exceeds 100000, price_deviation
is emitted iff a NONZERO limitPrice is set and deviates more than 3 percent
from price (the truthiness test makes a zero limit price count as absent),
unusual_security is emitted iff the symbol is CORP5Y or US10Y, and urgency
is high iff at least 2 warnings accumulate. -/
theorem warnings_spec_C9 (o : OrderDraft) (h : 0 < o.price) : WarnSpec o := by
  have hp : o.price ≠ 0 := ne_of_gt h
  unfold WarnSpec deriveUrgency
  cases hlp : o.limitPrice with
  | none =>
      unfold generateWarnings
      rw [hlp]
      dsimp only
      split_ifs <;> simp_all
  | some lp =>
      unfold generateWarnings
      rw [hlp]
      dsimp only
      split_ifs <;> simp_all

/-- A limit order on the corporate bond used to instantiate the warnings theorem. -/
def draftCorpDemo : OrderDraft :=
  { symbol := "CORP5Y", qty := 800, price := 200, limitPrice := some 150 }

/-- Witness for the amended C9 at a concrete order with positive price. -/
theorem warnings_spec_C9_witness : WarnSpec draftCorpDemo :=
  warnings_spec_C9 draftCorpDemo (by norm_num [draftCorpDemo])

/-! The approval workflow of src/unnamed/part_001: handleApprove
(lines 111-120) and handleReject (lines 122-131) map over the order list and
rewrite only the matching order's approval fields. -/

/-- Approval states: the source strings Pending Approval, Approved, Rejected. -/
inductive ApprovalStatus where
  | pendingApproval
  | approved
  | rejected
deriving DecidableEq, Repr

/-- An order awaiting approval, from src/src/types/approval.ts (interface
ApprovalOrder).  The timestamp is epoch milliseconds. -/
structure ApprovalOrder where
  id : String
  timestamp : Int
  symbol : String
  name : String
  securityType : String
  side : Side
  orderType : String
  tif : String
  qty : ℚ
  filledQty : ℚ
  price : ℚ
  limitPrice : Option ℚ
  fees : ℚ
  account : String
  submittedBy : String
  approvalStatus : ApprovalStatus
  approvalComment : Option String
  warnings : List Warning
  urgency : Urgency
deriving DecidableEq, Repr

/-- handleApprove, lines 111-120: the matching order gets status Approved
and, via comment || "Approved.", the comment with "Approved." substituted
for the empty string. -/
def handleApprove (orders : List ApprovalOrder) (orderId comment : String) :
    List ApprovalOrder :=
  orders.map (fun o =>
    if o.id = orderId then
      { o with approvalStatus := ApprovalStatus.approved,
               approvalComment := some (if comment = "" then "Approved." else comment) }
    else o)

/-- handleReject, lines 122-131: the matching order gets status Rejected and
the comment verbatim. -/
def handleReject (orders : List ApprovalOrder) (orderId comment : String) :
    List ApprovalOrder :=
  orders.map (fun o =>
    if o.id = orderId then
      { o with approvalStatus := ApprovalStatus.rejected,
               approvalComment := some comment }
    else o)

/-- All fields other than approvalStatus and approvalComment agree. -/
def UnchangedOutsideApproval (o o2 : ApprovalOrder) : Prop :=
  o2.id = o.id ∧ o2.timestamp = o.timestamp ∧ o2.symbol = o.symbol
    ∧ o2.name = o.name ∧ o2.securityType = o.securityType ∧ o2.side = o.side
    ∧ o2.orderType = o.orderType ∧ o2.tif = o.tif ∧ o2.qty = o.qty
    ∧ o2.filledQty = o.filledQty ∧ o2.price = o.price
    ∧ o2.limitPrice = o.limitPrice ∧ o2.fees = o.fees ∧ o2.account = o.account
    ∧ o2.submittedBy = o.submittedBy ∧ o2.warnings = o.warnings
    ∧ o2.urgency = o.urgency

/-- Frame property of one approval handler: the output has the same length
and order, every non-matching order is untouched, every matching order
changes only approvalStatus (to newStatus) and approvalComment (to the
handler's transform of the comment), and a miss leaves the list identical. -/
def HandlerFrameSpec (f : List ApprovalOrder → String → String → List ApprovalOrder)
    (newStatus : ApprovalStatus) (commentOf : String → String) : Prop :=
  ∀ (orders : List ApprovalOrder) (oid c : String),
    (f orders oid c).length = orders.length
    ∧ (∀ (i : Nat) (o : ApprovalOrder), orders[i]? = some o →
         ∃ o2, (f orders oid c)[i]? = some o2
           ∧ (o.id ≠ oid → o2 = o)
           ∧ (o.id = oid → UnchangedOutsideApproval o o2
                ∧ o2.approvalStatus = newStatus
                ∧ o2.approvalComment = some (commentOf c)))
    ∧ ((∀ o ∈ orders, o.id ≠ oid) → f orders oid c = orders)

/-- Mapping a function that fixes every member of a list is the identity. -/
theorem map_eq_self_of {α : Type} (l : List α) (f : α → α)
    (h : ∀ x ∈ l, f x = x) : l.map f = l := by
  induction l with
  | nil => rfl
  | cons a t ih =>
      rw [List.map_cons, h a (List.mem_cons_self a t),
        ih (fun x hx => h x (List.mem_cons_of_mem a hx))]

/-- C10: both handlers return a list of the same length and order in which
only orders with the given id are modified, and on those only
approvalStatus and approvalComment change — Approved with the comment
defaulting to "Approved." for the approve handler, Rejected with the
comment verbatim for the reject handler; an id matching no order leaves
the list identical. -/
theorem approval_handlers_C10 :
    HandlerFrameSpec handleApprove ApprovalStatus.approved
      (fun c => if c = "" then "Approved." else c)
    ∧ HandlerFrameSpec handleReject ApprovalStatus.rejected (fun c => c) := by
  constructor
  · intro orders oid c
    refine ⟨List.length_map _ _, ?_, ?_⟩
    · intro i o ho
      refine ⟨if o.id = oid then
          { o with approvalStatus := ApprovalStatus.approved,
                   approvalComment := some (if c = "" then "Approved." else c) }
        else o, ?_, ?_, ?_⟩
      · rw [handleApprove, List.getElem?_map, ho]
        rfl
      · intro hne; rw [if_neg hne]
      · intro heq
        rw [if_pos heq]
        exact ⟨⟨rfl, rfl, rfl, rfl, rfl, rfl, rfl, rfl, rfl, rfl, rfl, rfl, rfl,
          rfl, rfl, rfl, rfl⟩, rfl, rfl⟩
    · intro hno
      exact map_eq_self_of _ _ (fun o hmem => if_neg (hno o hmem))
  · intro orders oid c
    refine ⟨List.length_map _ _, ?_, ?_⟩
    · intro i o ho
      refine ⟨if o.id = oid then
          { o with approvalStatus := ApprovalStatus.rejected,
                   approvalComment := some c }
        else o, ?_, ?_, ?_⟩
      · rw [handleReject, List.getElem?_map, ho]
        rfl
      · intro hne; rw [if_neg hne]
      · intro heq
        rw [if_pos heq]
        exact ⟨⟨rfl, rfl, rfl, rfl, rfl, rfl, rfl, rfl, rfl, rfl, rfl, rfl, rfl,
          rfl, rfl, rfl, rfl⟩, rfl, rfl⟩
    · intro hno
      exact map_eq_self_of _ _ (fun o hmem => if_neg (hno o hmem))

/-- A pending order used to instantiate the handler frame theorem. -/
def demoPendingOrder : ApprovalOrder :=
  { id := "APR-001", timestamp := 0, symbol := "AAPL", name := "Apple Inc.",
    securityType := "Equity", side := Side.Buy, orderType := "Market", tif := "Day",
    qty := 100, filledQty := 0, price := 189.84, limitPrice := none, fees := 18.984,
    account := "INV-001 Main", submittedBy := "J. Smith",
    approvalStatus := ApprovalStatus.pendingApproval, approvalComment := none,
    warnings := [], urgency := Urgency.normal }

/-- Witness for C10: approving the only order with an empty comment yields a
same-length list whose first order is Approved with comment "Approved.". -/
theorem approval_handlers_C10_witness :
    (handleApprove [demoPendingOrder] "APR-001" "").length = 1
    ∧ ∃ o2, (handleApprove [demoPendingOrder] "APR-001" "")[0]? = some o2
        ∧ UnchangedOutsideApproval demoPendingOrder o2
        ∧ o2.approvalStatus = ApprovalStatus.approved
        ∧ o2.approvalComment = some "Approved." := by
  obtain ⟨hlen, hpt, hmiss⟩ := approval_handlers_C10.1 [demoPendingOrder] "APR-001" ""
  obtain ⟨o2, ho2, hne, hmatch⟩ := hpt 0 demoPendingOrder rfl
  obtain ⟨hframe, hst, hcm⟩ := hmatch rfl
  exact ⟨hlen, o2, ho2, hframe, hst, hcm⟩
